import Mathlib

/-!
Verification of the NotesManager command-line tool (`Notes.py`).

The development shallowly embeds the tool's logic:

* paths are `String`s; `os.path.join root name` is modelled as
  `root ++ "/" ++ name` (the names the program joins are relative, so this
  is the branch of `os.path.join` the program exercises);
* a directory tree is the inductive `FsTree`; `os.walk` applied to a
  nonexistent directory yields nothing (its default `onerror=None`
  suppresses the error), modelled by an `Option FsTree` argument of
  `os_walk`;
* the external fuzzy selector is an oracle `String → ProcOut` mapping the
  text piped to its standard input to an exit status and a standard-output
  string; `subprocess.check_output` raises `CalledProcessError` exactly
  when the exit status is non-zero, while `Popen.communicate` never raises
  it and simply hands back the output;
* the mutable filesystem touched by the `create` and `create_project`
  commands is the explicit state `FS` (files with contents, plus
  directories), threaded through the embedded commands;
* launching an external viewer or editor is represented by the value
  describing the launch (`Action`), not performed.
-/

namespace NotesManager

/-- Lowercasing `s.lower()` character by character (the extensions the
program compares are ASCII, where `Char.toLower` agrees with Python). -/
def lowerStr (s : String) : String :=
  String.mk (s.toList.map Char.toLower)

/-- Index of the last occurrence of `c` in `cs`, if any. -/
def lastIdxOf (c : Char) (cs : List Char) : Option Nat :=
  match cs.reverse.findIdx? (fun x => x == c) with
  | none => none
  | some j => some (cs.length - 1 - j)

/-- Extension part of `os.path.splitext` on a basename (a name containing no
path separator): everything from the last dot on, except that a name whose
characters before that dot are all dots (e.g. `".bashrc"`, `"..."`) has no
extension. -/
def splitextExt (base : List Char) : List Char :=
  match lastIdxOf '.' base with
  | none => []
  | some i => if (base.take i).all (fun x => x == '.') then [] else base.drop i

/-- Extension of a path as computed by `os.path.splitext(p)[1]`: the dot
search is confined to the part of `p` after its last `/`. -/
def pyExt (p : String) : String :=
  let base := (p.toList.reverse.takeWhile (fun c => c != '/')).reverse
  String.mk (splitextExt base)

/-- Concatenation `os.path.join(root, name)` for a relative `name`, the only
form the program uses. -/
def pyJoin (root name : String) : String :=
  root ++ "/" ++ name

/-- Embedding of `str.strip()`: remove leading and trailing whitespace. -/
def pyStrip (s : String) : String :=
  String.mk (((s.toList.dropWhile Char.isWhitespace).reverse.dropWhile
    Char.isWhitespace).reverse)

/-- Embedding of `s.endswith(t)`. -/
def pyEndsWith (s t : String) : Bool :=
  t.toList.isSuffixOf s.toList

mutual

/-- Directory tree: the regular-file names directly in a directory together
with its named subdirectories. -/
inductive FsTree where
  | node (files : List String) (subs : FsForest)

/-- List of named subdirectories of a directory. -/
inductive FsForest where
  | nil
  | cons (name : String) (t : FsTree) (rest : FsForest)

end

mutual

/-- Embedding of `os.walk(root)` (top-down, the default): the pairs
`(directory, filenames)` it yields, root first, then each subdirectory in
order. The middle component (`dirnames`) of the Python triple is unused by
the program and omitted. -/
def walk (root : String) : FsTree → List (String × List String)
  | .node files subs => (root, files) :: walkForest root subs

/-- Continuation of `walk` over the subdirectory list. -/
def walkForest (root : String) : FsForest → List (String × List String)
  | .nil => []
  | .cons name t rest => walk (pyJoin root name) t ++ walkForest root rest

end

/-- Embedding of `os.walk(directory)` including the nonexistent-directory
case: with its default `onerror=None`, `os.walk` on a directory that cannot
be read yields no triples at all. -/
def os_walk (directory : String) : Option FsTree → List (String × List String)
  | none => []
  | some t => walk directory t

/-- Embedding of `get_file_list` (`Notes.py` lines 64-72): walk `directory`
and keep `os.path.join(root, filename)` for every filename whose
`splitext` extension, lowercased, is a member of `allowed_file_types`. -/
def get_file_list (directory : String) (t : Option FsTree)
    (allowed_file_types : List String) : List String :=
  ((os_walk directory t).map (fun rf =>
    rf.2.filterMap (fun filename =>
      if allowed_file_types.contains (lowerStr (pyExt filename))
      then some (pyJoin rf.1 filename) else none))).flatten

mutual

/-- Specification-level list of all regular files under a directory tree,
as `(full path, filename)` pairs, defined by direct structural recursion
rather than through `walk`. -/
def filesUnder (root : String) : FsTree → List (String × String)
  | .node files subs =>
    files.map (fun n => (pyJoin root n, n)) ++ filesUnderForest root subs

/-- Continuation of `filesUnder` over the subdirectory list. -/
def filesUnderForest (root : String) : FsForest → List (String × String)
  | .nil => []
  | .cons name t rest =>
    filesUnder (pyJoin root name) t ++ filesUnderForest root rest

end

/-- Case-insensitive membership of an extension in an extension set, written
from the specification's words "whose extension, compared case-insensitively,
belongs to E". -/
def ciMember (exts : List String) (e : String) : Bool :=
  exts.any (fun x => lowerStr x == lowerStr e)

/-!
External selector processes and the selector adapters.
-/

/-- Observable outcome of one run of an external process: whether it exited
with status zero, and what it wrote to its standard output. -/
structure ProcOut where
  exitZero : Bool
  stdout : String
deriving Repr, DecidableEq

/-- Text piped to the selector by `fzf_select`: the candidate paths with
every occurrence of the expanded root (`~/GoogleDrive/`) removed, joined by
newlines. -/
def fzf_input (files : List String) (root : String) : String :=
  String.intercalate "\n" (files.map (fun file => file.replace root ""))

/-- How a call of `fzf_select` ends. `opened f` means the body called
`open_file_with_appropriate_viewer f` and then fell off the end of the
function (so the call returns Python `None`); `cancelled` means
`check_output` raised `CalledProcessError` (non-zero exit) and the handler
returned `None`; `stopIterationRaised` means the `next(...)` call found no
candidate ending with the selected label and its `StopIteration` escaped
uncaught (`except` only catches `CalledProcessError`). -/
inductive SelectOutcome where
  | cancelled
  | opened (file : String)
  | stopIterationRaised
deriving Repr, DecidableEq

/-- Result of a call of `fzf_select`: whether the external selector process
was started, the text piped to it, the outcome, and the Python return value
for the outcomes that return normally (it is `none` on every such path:
the `except` arm returns `None` and the `try` arm has no `return`). -/
structure SelectResult where
  selectorRan : Bool
  selectorInput : String
  outcome : SelectOutcome
  retval : Option String
deriving Repr, DecidableEq

/-- Embedding of `fzf_select` (`Notes.py` lines 75-102), with the external
`fzf` process abstracted as the oracle `sel`. The selector is invoked
unconditionally; on zero exit the output is stripped and the first candidate
whose path ends with it is passed to `open_file_with_appropriate_viewer`,
with `StopIteration` escaping when there is none; the function never returns
a path. -/
def fzf_select (files : List String) (root : String)
    (sel : String → ProcOut) : SelectResult :=
  let input := fzf_input files root
  let out := sel input
  if out.exitZero then
    let selected_file_name := pyStrip out.stdout
    match files.find? (fun file => pyEndsWith file selected_file_name) with
    | some selected_file =>
      { selectorRan := true, selectorInput := input
        outcome := .opened selected_file, retval := none }
    | none =>
      { selectorRan := true, selectorInput := input
        outcome := .stopIterationRaised, retval := none }
  else
    { selectorRan := true, selectorInput := input
      outcome := .cancelled, retval := none }

/-- Embedding of `fzf_select_project` (`Notes.py` lines 316-331): the items
are piped newline-joined to the selector through `Popen.communicate`, which
never raises `CalledProcessError`, so the exit status is ignored (the
`except` arm is unreachable) and the stripped standard output is returned
whatever the exit status was. -/
def fzf_select_project (items : List String) (sel : String → ProcOut) : String :=
  pyStrip (sel (String.intercalate "\n" items)).stdout

/-!
The dispatchers.
-/

/-- Launch decision of a dispatch site: a blocking `subprocess.run`, a
detached `subprocess.Popen`, or the unsupported-file-type message with no
process started. -/
inductive Action where
  | runBlocking (prog : String) (arg : String)
  | popenDetached (prog : String) (arg : String)
  | unsupported
deriving Repr, DecidableEq

/-- Embedding of the dispatch at the tail of the `open_file` command
(`Notes.py` lines 50-61): `.md` runs `nvim` blocking, `.pdf` detaches
`zathura`, `.epub` runs `ebook-viewer` blocking, anything else reports an
unsupported file type. -/
def open_file_dispatch (selected_file : String) : Action :=
  let file_extension := pyExt selected_file
  if file_extension = ".md" then .runBlocking "nvim" selected_file
  else if file_extension = ".pdf" then .popenDetached "zathura" selected_file
  else if file_extension = ".epub" then .runBlocking "ebook-viewer" selected_file
  else .unsupported

/-- Embedding of `open_file_with_appropriate_viewer` (`Notes.py` lines
334-344): `.md` runs `nvim` blocking, `.pdf` detaches `zathura`, and
anything else — including `.epub` — reports an unsupported file type. -/
def open_file_with_appropriate_viewer (file_path : String) : Action :=
  let file_extension := pyExt file_path
  if file_extension = ".md" then .runBlocking "nvim" file_path
  else if file_extension = ".pdf" then .popenDetached "zathura" file_path
  else .unsupported

/-- How the part of the `open_file` command after the directory scan ends. -/
inductive OpenFileEnd where
  | noFilesFound
  | noFileSelected
  | dispatched (a : Action)
  | raisedStopIteration
deriving Repr, DecidableEq

/-- Run of the `open_file` command body after the scan (`Notes.py` lines
40-61), on the candidate list `files` produced by `get_file_list`: an empty
list reports "No files found" and returns before any selection; otherwise
`fzf_select` runs, a falsy return value reports "No file selected", and a
truthy one would be dispatched. -/
structure OpenFileRun where
  selectorRan : Bool
  outcome : OpenFileEnd
deriving Repr, DecidableEq

/-- Embedding of the selection-and-dispatch part of the `open_file` command
(`Notes.py` lines 40-61). -/
def open_file_cmd (files : List String) (root : String)
    (sel : String → ProcOut) : OpenFileRun :=
  if files.isEmpty then
    { selectorRan := false, outcome := .noFilesFound }
  else
    let r := fzf_select files root sel
    match r.outcome with
    | .stopIterationRaised => { selectorRan := true, outcome := .raisedStopIteration }
    | _ =>
      match r.retval with
      | none => { selectorRan := true, outcome := .noFileSelected }
      | some selected_file =>
        { selectorRan := true, outcome := .dispatched (open_file_dispatch selected_file) }

/-!
Filesystem state for the note-creation and project-scaffolding commands.
-/

/-- Filesystem state: the regular files (path and content) and the
directories that exist. -/
structure FS where
  files : List (String × String)
  dirs : List String
deriving Repr, DecidableEq

/-- Embedding of `os.path.exists`: the path names an existing file or an
existing directory. -/
def fsExists (fs : FS) (p : String) : Bool :=
  fs.files.any (fun f => f.1 == p) || fs.dirs.contains p

/-- Effect of `os.makedirs(p)` on the state (intermediate directories are
irrelevant to the claims and not tracked). -/
def mkdirFs (fs : FS) (p : String) : FS :=
  { fs with dirs := fs.dirs ++ [p] }

/-- Effect of `open(p, "w")` followed by writing `c`: any previous file at
`p` is replaced. -/
def writeFileFs (fs : FS) (p c : String) : FS :=
  { fs with files := fs.files.filter (fun f => f.1 != p) ++ [(p, c)] }

/-- Content of the file at `p`, if one exists. -/
def contentOf (fs : FS) (p : String) : Option String :=
  (fs.files.find? (fun f => f.1 == p)).map (fun f => f.2)

/-- Report of the `create` command. -/
inductive NoteResult where
  | alreadyExists
  | success
deriving Repr, DecidableEq

/-- Embedding of the file-writing part of the `create` command (`Notes.py`
lines 113-127): the target is `directory/note_name.md`; an existing path is
reported as already existing and nothing is written, otherwise the file is
created with content `"# " ++ note_name` and success is reported. The
editor launched afterwards is an external process outside this model. -/
def create (fs : FS) (note_name directory : String) : FS × NoteResult :=
  let note_path := pyJoin directory (note_name ++ ".md")
  if fsExists fs note_path then (fs, .alreadyExists)
  else (writeFileFs fs note_path ("# " ++ note_name), .success)

/-- One item of a template folder. In the source every item occurring in the
`project_templates` literal is a Python string, so at run time the
`isinstance(item, str)` test always takes the file branch; the directory
branch is kept for fidelity. -/
inductive TItem where
  | file (name : String)
  | subdir (name : String)
deriving Repr, DecidableEq

/-- Embedding of the `project_templates` literal (`Notes.py` lines 155-166).
Every listed item is a string, hence a `TItem.file`. The `webapp` entry
`"README.md": ""` maps a folder name to the empty string, iterating over
which yields no characters, hence the empty item list. -/
def project_templates : List (String × List (String × List TItem)) :=
  [("default",
     [("notes", [.file "notes.md"]),
      ("notes/reference", [])]),
   ("webapp",
     [("src", [.file "src", .file "app.py", .file "static", .file "templates"]),
      ("data", [.file "data"]),
      ("docs", [.file "docs"]),
      ("README.md", [])])]

/-- Report of the `create_project` command. -/
inductive ProjectResult where
  | alreadyExists
  | unknownTemplate
  | success (gitRequested : Bool)
deriving Repr, DecidableEq

/-- Effect of scaffolding one template folder: create the folder, then each
item inside it (files empty, directories bare). -/
def scaffoldFolder (project_path : String) (fs : FS)
    (entry : String × List TItem) : FS :=
  let folder_path := pyJoin project_path entry.1
  let fs1 := mkdirFs fs folder_path
  entry.2.foldl (fun acc item =>
    match item with
    | .file n => writeFileFs acc (pyJoin folder_path n) ""
    | .subdir n => mkdirFs acc (pyJoin folder_path n)) fs1

/-- Embedding of the `create_project` command (`Notes.py` lines 151-205):
an existing `directory/project_name` is reported first; an unknown template
is reported next, before anything is created; otherwise the project root
and every template folder and item are created and success is reported
(with `git init` requested when the flag is set — the git subprocess itself
is outside this model). -/
def create_project (fs : FS) (project_name template : String) (git : Bool)
    (directory : String) : FS × ProjectResult :=
  let project_path := pyJoin directory project_name
  if fsExists fs project_path then (fs, .alreadyExists)
  else
    match project_templates.find? (fun kv => kv.1 == template) with
    | none => (fs, .unknownTemplate)
    | some kv =>
      let fs1 := mkdirFs fs project_path
      let fs2 := kv.2.foldl (scaffoldFolder project_path) fs1
      (fs2, .success git)

/-!
Helper lemmas.
-/

/-- Value of `fzf_select` on any input: the selector process is started on
every control path (the `check_output` call is the first statement of the
`try` block and nothing before it can fail). -/
theorem fzf_select_selectorRan (files : List String) (root : String)
    (sel : String → ProcOut) : (fzf_select files root sel).selectorRan = true := by
  unfold fzf_select
  cases h : (sel (fzf_input files root)).exitZero
  · simp [h]
  · cases hf : files.find?
      (fun file => pyEndsWith file (pyStrip (sel (fzf_input files root)).stdout)) <;>
      simp [h, hf]

mutual

/-- Walk-then-filter over a tree agrees with the structural file listing
filtered by the same extension test. -/
theorem walkFilter_eq (E : List String) (root : String) (t : FsTree) :
    ((walk root t).map (fun rf =>
      rf.2.filterMap (fun filename =>
        if E.contains (lowerStr (pyExt filename))
        then some (pyJoin rf.1 filename) else none))).flatten =
    (filesUnder root t).filterMap (fun pn =>
      if E.contains (lowerStr (pyExt pn.2)) then some pn.1 else none) :=
  match t with
  | .node files subs => by
    simp only [walk, filesUnder, List.map_cons, List.flatten_cons,
      List.filterMap_append, List.filterMap_map]
    rw [walkFilterForest_eq E root subs]
    rfl

/-- Forest version of `walkFilter_eq`. -/
theorem walkFilterForest_eq (E : List String) (root : String) (f : FsForest) :
    ((walkForest root f).map (fun rf =>
      rf.2.filterMap (fun filename =>
        if E.contains (lowerStr (pyExt filename))
        then some (pyJoin rf.1 filename) else none))).flatten =
    (filesUnderForest root f).filterMap (fun pn =>
      if E.contains (lowerStr (pyExt pn.2)) then some pn.1 else none) :=
  match f with
  | .nil => rfl
  | .cons name t rest => by
    simp only [walkForest, filesUnderForest, List.map_append, List.flatten_append,
      List.filterMap_append]
    rw [walkFilter_eq E (pyJoin root name) t, walkFilterForest_eq E root rest]

end

/-- Searching an association list for a key after filtering that key out
finds nothing. -/
theorem find?_filter_ne (l : List (String × String)) (p : String) :
    (l.filter (fun f => f.1 != p)).find? (fun f => f.1 == p) = none := by
  induction l with
  | nil => rfl
  | cons a l ih =>
    by_cases h : a.1 = p <;> simp [List.filter_cons, h, ih, List.find?_cons]

/-!
The claims.
-/

/-- C2 (amended): `get_file_list` returns exactly the regular files under
the directory (recursively, in traversal order) whose extension, lowercased,
is a member of the allowed set; membership itself is case-sensitive. -/
theorem get_file_list_exact (d : String) (t : FsTree) (E : List String) :
    get_file_list d (some t) E =
      (filesUnder d t).filterMap (fun pn =>
        if E.contains (lowerStr (pyExt pn.2)) then some pn.1 else none) := by
  unfold get_file_list os_walk
  exact walkFilter_eq E d t

/-- C2 (counterexample): the file `a.PDF` has extension `.PDF`, which
case-insensitively belongs to the set `{".PDF"}`, yet scanning a directory
holding exactly that file with that set returns nothing — the code
lowercases only the file's extension and then tests membership
case-sensitively. -/
theorem get_file_list_ci_counterexample :
    ciMember [".PDF"] (pyExt "a.PDF") = true ∧
    get_file_list "/r" (some (.node ["a.PDF"] .nil)) [".PDF"] = [] := by
  constructor <;> decide

/-- C9: scanning a nonexistent directory (`os.walk` yields nothing) or an
empty directory returns the empty list; the embedded scan is a total
function, so no error is possible. -/
theorem get_file_list_empty_or_missing (d : String) (E : List String) :
    get_file_list d none E = [] ∧
    get_file_list d (some (.node [] .nil)) E = [] := by
  exact ⟨rfl, rfl⟩

/-- C1 (code evaluated at the failing input): with the single candidate
`/g/n.md` and a selector that succeeds with the label `n.md`, `fzf_select`
resolves the first candidate ending with the label and opens it, but its
Python return value is `None`, not the resolved path — the `try` arm has no
`return` statement, so the declared contract
`select(candidates) -> optional<path>` is never fulfilled and the caller's
`if not selected_file` check always fires. -/
theorem fzf_select_match_returns_none :
    (fzf_select ["/g/n.md"] "/g/" (fun _ => ⟨true, "n.md\n"⟩)).outcome =
      .opened "/g/n.md" ∧
    (fzf_select ["/g/n.md"] "/g/" (fun _ => ⟨true, "n.md\n"⟩)).retval = none := by
  constructor <;> decide

/-- C3 (counterexample): called on the empty candidate list, `fzf_select`
does start the external selector process — the `check_output` call is
unconditional. -/
theorem fzf_select_empty_runs_selector :
    (fzf_select [] "/g/" (fun _ => ⟨false, ""⟩)).selectorRan = true := by
  decide

/-- C3 (amended): the empty-candidate guard lives in the calling command,
not in the adapter: on an empty candidate list the `open_file` command
reports that no files were found and returns without invoking the external
selector, while `fzf_select` itself, called directly on an empty list, does
invoke it. -/
theorem open_file_empty_no_selector (root : String) (sel : String → ProcOut) :
    (open_file_cmd [] root sel).selectorRan = false ∧
    (open_file_cmd [] root sel).outcome = .noFilesFound ∧
    (fzf_select [] root sel).selectorRan = true :=
  ⟨rfl, rfl, fzf_select_selectorRan [] root sel⟩

/-- C8: a selector process exiting with non-zero status makes
`check_output` raise `CalledProcessError`, which `fzf_select` catches and
answers with `None`; `fzf_select_project` ignores the exit status entirely
(`communicate` raises nothing) and returns the stripped output, which on a
cancellation — where the selector writes no selection line — is the empty
string. Neither adapter propagates an error. -/
theorem select_cancel_no_selection
    (files : List String) (root : String) (sel : String → ProcOut)
    (items : List String) (selp : String → ProcOut)
    (h1 : (sel (fzf_input files root)).exitZero = false)
    (h2 : (selp (String.intercalate "\n" items)).exitZero = false)
    (h3 : pyStrip (selp (String.intercalate "\n" items)).stdout = "") :
    (fzf_select files root sel).outcome = .cancelled ∧
    (fzf_select files root sel).retval = none ∧
    fzf_select_project items selp = "" := by
  unfold fzf_select fzf_select_project
  simp [h1, h3]

/-- C8 (witness): concrete cancelled runs of both adapters. -/
theorem select_cancel_no_selection_witness :
    ((fun _ => ProcOut.mk false "") (fzf_input ["/g/a.md"] "/g/")).exitZero = false ∧
    ((fun _ => ProcOut.mk false "") (String.intercalate "\n" ["p1"])).exitZero = false ∧
    pyStrip ((fun _ => ProcOut.mk false "") (String.intercalate "\n" ["p1"])).stdout = "" ∧
    (fzf_select ["/g/a.md"] "/g/" (fun _ => ProcOut.mk false "")).outcome = .cancelled ∧
    (fzf_select ["/g/a.md"] "/g/" (fun _ => ProcOut.mk false "")).retval = none ∧
    fzf_select_project ["p1"] (fun _ => ProcOut.mk false "") = "" := by
  refine ⟨rfl, rfl, rfl, ?_⟩
  have h := select_cancel_no_selection ["/g/a.md"] "/g/" (fun _ => ProcOut.mk false "")
    ["p1"] (fun _ => ProcOut.mk false "") rfl rfl rfl
  exact ⟨h.1, h.2.1, h.2.2⟩

/-- C10: when the selector exits with status zero and its stripped output is
a non-empty label no candidate path ends with, the `next(...)` call inside
`fzf_select` finds nothing and its `StopIteration` escapes uncaught — the
`except` clause only catches `CalledProcessError`. -/
theorem fzf_select_unmatched_label_raises
    (files : List String) (root : String) (sel : String → ProcOut)
    (hz : (sel (fzf_input files root)).exitZero = true)
    (hne : pyStrip (sel (fzf_input files root)).stdout ≠ "")
    (hnm : ∀ f ∈ files,
      pyEndsWith f (pyStrip (sel (fzf_input files root)).stdout) = false) :
    (fzf_select files root sel).outcome = .stopIterationRaised := by
  unfold fzf_select
  have hfind : files.find?
      (fun file => pyEndsWith file (pyStrip (sel (fzf_input files root)).stdout)) = none := by
    rw [List.find?_eq_none]
    intro f hf
    simp [hnm f hf]
  simp [hz, hfind]

/-- C10 (witness): a selector answering the label `zzz` over the single
candidate `/g/a.md` raises `StopIteration`. -/
theorem fzf_select_unmatched_label_raises_witness :
    ((fun _ => ProcOut.mk true "zzz") (fzf_input ["/g/a.md"] "/g/")).exitZero = true ∧
    pyStrip ((fun _ => ProcOut.mk true "zzz") (fzf_input ["/g/a.md"] "/g/")).stdout ≠ "" ∧
    (∀ f ∈ ["/g/a.md"],
      pyEndsWith f (pyStrip ((fun _ => ProcOut.mk true "zzz") (fzf_input ["/g/a.md"] "/g/")).stdout) = false) ∧
    (fzf_select ["/g/a.md"] "/g/" (fun _ => ProcOut.mk true "zzz")).outcome =
      .stopIterationRaised := by
  refine ⟨rfl, by decide, by decide, ?_⟩
  exact fzf_select_unmatched_label_raises ["/g/a.md"] "/g/" (fun _ => ProcOut.mk true "zzz")
    rfl (by decide) (by decide)

/-- C4 (code evaluated at the failing input): the `open_file` command's own
dispatch launches the blocking e-book viewer on an `.epub` path, but
`open_file_with_appropriate_viewer` — the dispatcher actually reached by
every selection, and the second site the claim covers — has no `.epub`
branch and reports an unsupported file type, launching nothing. -/
theorem epub_dispatch_mismatch :
    open_file_dispatch "/n/book.epub" = .runBlocking "ebook-viewer" "/n/book.epub" ∧
    open_file_with_appropriate_viewer "/n/book.epub" = .unsupported := by
  constructor <;> decide

/-- C7: a path whose extension is outside the dispatch tables (`.md`,
`.pdf`, `.epub`) is reported as an unsupported file type at both dispatch
sites, and no subprocess launch is produced. -/
theorem dispatch_unknown_extension_unsupported (p : String)
    (h1 : pyExt p ≠ ".md") (h2 : pyExt p ≠ ".pdf") (h3 : pyExt p ≠ ".epub") :
    open_file_dispatch p = .unsupported ∧
    open_file_with_appropriate_viewer p = .unsupported := by
  unfold open_file_dispatch open_file_with_appropriate_viewer
  simp [h1, h2, h3]

/-- C7 (witness): the path `a.xyz` hits the unsupported branch at both
sites. -/
theorem dispatch_unknown_extension_unsupported_witness :
    pyExt "a.xyz" ≠ ".md" ∧ pyExt "a.xyz" ≠ ".pdf" ∧ pyExt "a.xyz" ≠ ".epub" ∧
    open_file_dispatch "a.xyz" = .unsupported ∧
    open_file_with_appropriate_viewer "a.xyz" = .unsupported := by
  refine ⟨by decide, by decide, by decide, ?_⟩
  exact dispatch_unknown_extension_unsupported "a.xyz" (by decide) (by decide) (by decide)

/-- C5: when `directory/name.md` does not exist, `create` writes that file
with content exactly `"# " ++ name` and reports success; an immediately
repeated call with the same arguments reports that the note already exists
and leaves the filesystem — in particular the file's content — unchanged. -/
theorem create_note_correct (fs : FS) (name dir : String)
    (h : fsExists fs (pyJoin dir (name ++ ".md")) = false) :
    (create fs name dir).2 = .success ∧
    contentOf (create fs name dir).1 (pyJoin dir (name ++ ".md")) =
      some ("# " ++ name) ∧
    (create (create fs name dir).1 name dir).2 = .alreadyExists ∧
    (create (create fs name dir).1 name dir).1 = (create fs name dir).1 := by
  unfold create
  simp only [h, Bool.false_eq_true, if_false]
  have hex : fsExists (writeFileFs fs (pyJoin dir (name ++ ".md")) ("# " ++ name))
      (pyJoin dir (name ++ ".md")) = true := by
    unfold fsExists writeFileFs
    simp
  have hcontent : contentOf (writeFileFs fs (pyJoin dir (name ++ ".md")) ("# " ++ name))
      (pyJoin dir (name ++ ".md")) = some ("# " ++ name) := by
    unfold contentOf writeFileFs
    have := find?_filter_ne fs.files (pyJoin dir (name ++ ".md"))
    simp [List.find?_append, this]
  simp [hex, hcontent]

/-- C5 (witness): creating `foo` in `/d` on the empty filesystem. -/
theorem create_note_correct_witness :
    fsExists ⟨[], []⟩ (pyJoin "/d" ("foo" ++ ".md")) = false ∧
    ((create ⟨[], []⟩ "foo" "/d").2 = .success ∧
     contentOf (create ⟨[], []⟩ "foo" "/d").1 (pyJoin "/d" ("foo" ++ ".md")) =
       some ("# " ++ "foo") ∧
     (create (create ⟨[], []⟩ "foo" "/d").1 "foo" "/d").2 = .alreadyExists ∧
     (create (create ⟨[], []⟩ "foo" "/d").1 "foo" "/d").1 =
       (create ⟨[], []⟩ "foo" "/d").1) :=
  ⟨by decide, create_note_correct ⟨[], []⟩ "foo" "/d" (by decide)⟩

/-- C6: `create_project` with a template name absent from the fixed template
mapping, called where `directory/name` does not already exist, reports the
unknown template and returns the filesystem unchanged — the template check
happens before any `makedirs` or file creation. -/
theorem create_project_unknown_template (fs : FS) (name template : String)
    (git : Bool) (dir : String)
    (hT : template ∉ project_templates.map Prod.fst)
    (hE : fsExists fs (pyJoin dir name) = false) :
    create_project fs name template git dir = (fs, .unknownTemplate) := by
  unfold create_project
  have hfind : project_templates.find? (fun kv => kv.1 == template) = none := by
    rw [List.find?_eq_none]
    intro kv hkv
    simp only [beq_iff_eq]
    intro hEq
    exact hT (List.mem_map.mpr ⟨kv, hkv, hEq⟩)
  simp [hE, hfind]

/-- C6 (witness): an unknown template on the empty filesystem. -/
theorem create_project_unknown_template_witness :
    "nonexistent-template" ∉ project_templates.map Prod.fst ∧
    fsExists ⟨[], []⟩ (pyJoin "/d" "baz") = false ∧
    create_project ⟨[], []⟩ "baz" "nonexistent-template" false "/d" =
      (⟨[], []⟩, .unknownTemplate) :=
  ⟨by decide, by decide,
    create_project_unknown_template ⟨[], []⟩ "baz" "nonexistent-template" false "/d"
      (by decide) (by decide)⟩

end NotesManager
